import Mathlib

/-!
Verification of the Sensirion SHT3x humidity/temperature sensor driver
(`src/sht3x/sht3x.c`, `src/sht3x/sht3x.h`), as a shallow embedding.

Modelling conventions:
* Machine integers are `Nat`/`Int` with explicit `% 2^w` where the C code
  can wrap (`uint32_t` arithmetic in the alert-threshold encoder, the
  `int16_t` store in the decoder).
* The I2C bus transport is external; each driver operation takes the
  status codes and data words the transport would deliver as explicit
  parameters, and returns the trace of bus/delay effects it performs as a
  `List Effect`, together with the returned status code and the final
  values of all output parameters (output pointees are threaded as
  "initial value in, final value out" so that frame properties are
  expressible).
* The process-wide `sht3x_cmd_measure` global is threaded explicitly:
  `sht3x_set_power_mode`/`sht3x_enable_low_power_mode` return the new
  value of the global, and `sht3x_measure` takes the current value.
-/

/-- Status code `STATUS_OK` from sht3x.h. -/
def STATUS_OK : Int := 0

/-- Status code `STATUS_ERR_BAD_DATA` from sht3x.h. -/
def STATUS_ERR_BAD_DATA : Int := -1

/-- Status code `STATUS_CRC_FAIL` from sht3x.h. -/
def STATUS_CRC_FAIL : Int := -2

/-- Status code `STATUS_UNKNOWN_DEVICE` from sht3x.h. -/
def STATUS_UNKNOWN_DEVICE : Int := -3

/-- Status code `STATUS_ERR_INVALID_PARAMS` from sht3x.h. -/
def STATUS_ERR_INVALID_PARAMS : Int := -4

/-- `SHT3X_MEASUREMENT_DURATION_USEC` from sht3x.h. -/
def SHT3X_MEASUREMENT_DURATION_USEC : Nat := 15000

/-- Status word macro `SHT3X_IS_ALRT_PENDING(status)`: `(status & 0x8000) != 0`. -/
def SHT3X_IS_ALRT_PENDING (status : Nat) : Bool := (status &&& 0x8000) != 0

/-- Status word macro `SHT3X_IS_ALRT_RH_TRACK(status)`: `(status & 0x0800) != 0`. -/
def SHT3X_IS_ALRT_RH_TRACK (status : Nat) : Bool := (status &&& 0x0800) != 0

/-- Status word macro `SHT3X_IS_ALRT_T_TRACK(status)`: `(status & 0x0400) != 0`. -/
def SHT3X_IS_ALRT_T_TRACK (status : Nat) : Bool := (status &&& 0x0400) != 0

/-- Status word macro `SHT3X_IS_SYSTEM_RST_DETECT(status)`: `(status & 0x0010) != 0`. -/
def SHT3X_IS_SYSTEM_RST_DETECT (status : Nat) : Bool := (status &&& 0x0010) != 0

/-- Status word macro `SHT3X_IS_LAST_CRC_FAIL(status)`: `(status & 0x0001) != 0`. -/
def SHT3X_IS_LAST_CRC_FAIL (status : Nat) : Bool := (status &&& 0x0001) != 0

/-- The `sht3x_i2c_addr_t` enumeration (7-bit device addresses). -/
inductive Sht3xI2cAddr
  | dflt
  | alt
deriving DecidableEq

/-- Numeric value of an `sht3x_i2c_addr_t` enumerator: `SHT3X_I2C_ADDR_DFLT = 0x44`,
`SHT3X_I2C_ADDR_ALT = 0x45`. -/
def Sht3xI2cAddr.val : Sht3xI2cAddr → Nat
  | .dflt => 0x44
  | .alt => 0x45

/-- `SHT3X_CMD_MEASURE_HPM` in the non-clock-stretch build. -/
def SHT3X_CMD_MEASURE_HPM : Nat := 0x2400

/-- `SHT3X_CMD_MEASURE_MPM` in the non-clock-stretch build. -/
def SHT3X_CMD_MEASURE_MPM : Nat := 0x240B

/-- `SHT3X_CMD_MEASURE_LPM` in the non-clock-stretch build. -/
def SHT3X_CMD_MEASURE_LPM : Nat := 0x2416

/-- `SHT3X_CMD_READ_STATUS_REG`. -/
def SHT3X_CMD_READ_STATUS_REG : Nat := 0xF32D

/-- `SHT3X_CMD_CLR_STATUS_REG`. -/
def SHT3X_CMD_CLR_STATUS_REG : Nat := 0x3041

/-- `SHT3X_CMD_READ_SERIAL_ID`. -/
def SHT3X_CMD_READ_SERIAL_ID : Nat := 0x3780

/-- `SHT3X_CMD_DURATION_USEC`. -/
def SHT3X_CMD_DURATION_USEC : Nat := 1000

/-- `SHT3X_CMD_READ_HIALRT_LIM_SET`. -/
def SHT3X_CMD_READ_HIALRT_LIM_SET : Nat := 0xE11F

/-- `SHT3X_CMD_READ_HIALRT_LIM_CLR`. -/
def SHT3X_CMD_READ_HIALRT_LIM_CLR : Nat := 0xE114

/-- `SHT3X_CMD_READ_LOALRT_LIM_CLR`. -/
def SHT3X_CMD_READ_LOALRT_LIM_CLR : Nat := 0xE109

/-- `SHT3X_CMD_READ_LOALRT_LIM_SET`. -/
def SHT3X_CMD_READ_LOALRT_LIM_SET : Nat := 0xE102

/-- `SHT3X_CMD_WRITE_HIALRT_LIM_SET`. -/
def SHT3X_CMD_WRITE_HIALRT_LIM_SET : Nat := 0x611D

/-- `SHT3X_CMD_WRITE_HIALRT_LIM_CLR`. -/
def SHT3X_CMD_WRITE_HIALRT_LIM_CLR : Nat := 0x6116

/-- `SHT3X_CMD_WRITE_LOALRT_LIM_CLR`. -/
def SHT3X_CMD_WRITE_LOALRT_LIM_CLR : Nat := 0x610B

/-- `SHT3X_CMD_WRITE_LOALRT_LIM_SET`. -/
def SHT3X_CMD_WRITE_LOALRT_LIM_SET : Nat := 0x6100

/-- `SHT3X_HUMIDITY_LIMIT_MSK` (upper 7 bits of the alert limit word). -/
def SHT3X_HUMIDITY_LIMIT_MSK : Nat := 0xFE00

/-- `SHT3X_TEMPERATURE_LIMIT_MSK` (lower 9 bits of the alert limit word). -/
def SHT3X_TEMPERATURE_LIMIT_MSK : Nat := 0x01FF

/-- Enumerator `SHT3X_MEAS_MODE_LPM` of `sht3x_measurement_mode_t`. -/
def SHT3X_MEAS_MODE_LPM : Nat := 0

/-- Enumerator `SHT3X_MEAS_MODE_MPM` of `sht3x_measurement_mode_t`. -/
def SHT3X_MEAS_MODE_MPM : Nat := 1

/-- Enumerator `SHT3X_MEAS_MODE_HPM` of `sht3x_measurement_mode_t`. -/
def SHT3X_MEAS_MODE_HPM : Nat := 2

/-- One observable interaction of the driver with its environment: a bus
transaction issued through the sensirion I2C layer, or a call to the delay
primitive. -/
inductive Effect
  | i2cWriteCmd (addr cmd : Nat)
  | i2cWriteCmdWithArgs (addr cmd arg : Nat)
  | i2cReadWords (addr numWords : Nat)
  | i2cReadWordsAsBytes (addr numWords : Nat)
  | i2cReadCmd (addr cmd : Nat)
  | i2cDelayedReadCmd (addr cmd delayUsec numWords : Nat)
  | sleepUsec (usec : Nat)
deriving DecidableEq

/-- Initial value of the file-scope global `sht3x_cmd_measure`
(line 75: `static uint16_t sht3x_cmd_measure = SHT3X_CMD_MEASURE_HPM;`). -/
def sht3x_cmd_measure_init : Nat := SHT3X_CMD_MEASURE_HPM

/-- `sht3x_enable_low_power_mode` (sht3x.c lines 124-127): returns the new
value of the `sht3x_cmd_measure` global.  The C parameter is a `uint8_t`. -/
def sht3x_enable_low_power_mode (enable_low_power_mode : Nat) : Nat :=
  if enable_low_power_mode ≠ 0 then SHT3X_CMD_MEASURE_LPM else SHT3X_CMD_MEASURE_HPM

/-- `sht3x_set_power_mode` (sht3x.c lines 129-150): switch on the mode
enumerator, with a `default` arm selecting the high-precision command; returns
the new value of the `sht3x_cmd_measure` global. -/
def sht3x_set_power_mode (mode : Nat) : Nat :=
  match mode with
  | 0 => SHT3X_CMD_MEASURE_LPM
  | 1 => SHT3X_CMD_MEASURE_MPM
  | 2 => SHT3X_CMD_MEASURE_HPM
  | _ => SHT3X_CMD_MEASURE_HPM

/-- `sht3x_measure` (sht3x.c lines 89-91): writes the currently selected
measurement command.  `sht3x_cmd_measure` is the current value of the global;
`writeRet` is the status the bus transport returns for the write. -/
def sht3x_measure (sht3x_cmd_measure : Nat) (writeRet : Int) (addr : Nat) :
    Int × List Effect :=
  (writeRet, [Effect.i2cWriteCmd addr sht3x_cmd_measure])

/-- `sht3x_read` (sht3x.c lines 93-107).  `w0`/`w1` are the two 16-bit words
delivered by `sensirion_i2c_read_words` and `readRet` its status; `temp0`/`hum0`
are the initial values of the output pointees (they are always overwritten).
The int32 arithmetic never overflows (`21875 * 65535 < 2^31`) and operates on
non-negative values, so `Nat` shift/division is exact; the result of the
subtraction is an `Int`. -/
def sht3x_read (readRet : Int) (w0 w1 : Nat) (addr : Nat) (temp0 hum0 : Int) :
    Int × Int × Int × List Effect :=
  let temperature : Int := (((21875 * w0) >>> 13 : Nat) : Int) - 45000
  let humidity : Int := (((12500 * w1) >>> 13 : Nat) : Int)
  (readRet, temperature, humidity, [Effect.i2cReadWords addr 2])

/-- `sht3x_measure_blocking_read` (sht3x.c lines 77-87): `sht3x_measure`,
then (only if it succeeded) the fixed measurement delay followed by
`sht3x_read`. -/
def sht3x_measure_blocking_read (sht3x_cmd_measure : Nat) (writeRet readRet : Int)
    (w0 w1 : Nat) (addr : Nat) (temp0 hum0 : Int) :
    Int × Int × Int × List Effect :=
  let m := sht3x_measure sht3x_cmd_measure writeRet addr
  if m.1 = STATUS_OK then
    let r := sht3x_read readRet w0 w1 addr temp0 hum0
    (r.1, r.2.1, r.2.2.1,
      m.2 ++ Effect.sleepUsec SHT3X_MEASUREMENT_DURATION_USEC :: r.2.2.2)
  else
    (m.1, temp0, hum0, m.2)

/-- `sht3x_probe` (sht3x.c lines 109-113). -/
def sht3x_probe (readRet : Int) (addr : Nat) : Int × List Effect :=
  (readRet, [Effect.i2cDelayedReadCmd addr SHT3X_CMD_READ_STATUS_REG
    SHT3X_CMD_DURATION_USEC 1])

/-- `sht3x_get_status` (sht3x.c lines 115-118).  `statusRead` is the word the
bus delivers into the output parameter. -/
def sht3x_get_status (readRet : Int) (statusRead : Nat) (addr : Nat) :
    Int × Nat × List Effect :=
  (readRet, statusRead, [Effect.i2cDelayedReadCmd addr SHT3X_CMD_READ_STATUS_REG
    SHT3X_CMD_DURATION_USEC 1])

/-- `sht3x_clear_status` (sht3x.c lines 120-122). -/
def sht3x_clear_status (writeRet : Int) (addr : Nat) : Int × List Effect :=
  (writeRet, [Effect.i2cWriteCmd addr SHT3X_CMD_CLR_STATUS_REG])

/-- Modelled from the spec: `sensirion_bytes_to_uint32_t` is defined in the
sensirion common module, which is not part of this repository's sources; the
spec (section 4.1, `readSerial`) says the four bytes are assembled into a
32-bit serial number by a byte-array-to-uint32 helper, in wire (big-endian)
order. -/
def sensirion_bytes_to_uint32 (b0 b1 b2 b3 : Nat) : Nat :=
  ((b0 % 256) <<< 24) ||| ((b1 % 256) <<< 16) ||| ((b2 % 256) <<< 8) ||| (b3 % 256)

/-- `sht3x_read_serial` (sht3x.c lines 152-166): write the serial-ID command,
sleep 1000 us unconditionally, then read and assemble the serial only when the
write succeeded.  `b0..b3` are the bytes the bus would deliver, `serial0` the
initial value of the output pointee (left unchanged on the failure path). -/
def sht3x_read_serial (writeRet readRet : Int) (b0 b1 b2 b3 : Nat)
    (addr : Nat) (serial0 : Nat) : Int × Nat × List Effect :=
  let effs := [Effect.i2cWriteCmd addr SHT3X_CMD_READ_SERIAL_ID,
    Effect.sleepUsec SHT3X_CMD_DURATION_USEC]
  if writeRet = STATUS_OK then
    (readRet, sensirion_bytes_to_uint32 b0 b1 b2 b3,
      effs ++ [Effect.i2cReadWordsAsBytes addr 2])
  else
    (writeRet, serial0, effs)

/-- `sht3x_get_configured_address` (sht3x.c lines 172-174): `return addr;`
(the `uint8_t` return value of the enum argument). -/
def sht3x_get_configured_address (addr : Sht3xI2cAddr) : Nat :=
  addr.val

/-- Humidity field of the alert limit word, sht3x.c lines 182-185:
`tmp = (humidity << 16) - humidity; tmp = tmp / 1000U;
limitVal = ((uint16_t)tmp & SHT3X_HUMIDITY_LIMIT_MSK);`.
`humidity` is a `uint16_t` in tenths of %RH; `tmp` is a `uint32_t`
(`humidity <<< 16 ≥ humidity`, so the `Nat` subtraction matches the wrapping
C computation modulo `2^32`). -/
def encodeHumField (humidity : Nat) : Nat :=
  let tmp := ((humidity <<< 16) - humidity) % 4294967296
  let tmp2 := tmp / 1000
  (tmp2 % 65536) &&& SHT3X_HUMIDITY_LIMIT_MSK

/-- Temperature field of the alert limit word, sht3x.c lines 187-191:
`tmp = (uint32_t)(temperature + 450); tmp = (tmp << 16) - tmp;
tmp = tmp / 1750U; tmp = (tmp >> 7);
limitVal |= ((uint16_t)tmp & SHT3X_TEMPERATURE_LIMIT_MSK);`.
`temperature` is an `int16_t` in tenths of degrees Celsius; the cast to
`uint32_t` is modelled by the `% 2^32` on the `Int` sum. -/
def encodeTempField (temperature : Int) : Nat :=
  let tmp := ((temperature + 450) % 4294967296).toNat
  let tmp2 := ((tmp <<< 16) - tmp) % 4294967296
  let tmp3 := tmp2 / 1750
  let tmp4 := tmp3 >>> 7
  (tmp4 % 65536) &&& SHT3X_TEMPERATURE_LIMIT_MSK

/-- The complete alert limit word built by `sht3x_set_alert_thd`
(sht3x.c lines 182-191): the OR of the two fields. -/
def sht3x_encode_limit (humidity : Nat) (temperature : Int) : Nat :=
  encodeHumField humidity ||| encodeTempField temperature

/-- Conversion of an `int32_t` value to `int16_t` (the store
`*temperature = (int16_t)tmp;` in `sht3x_get_alert_thd`). -/
def int16_cast (x : Int) : Int := (x + 32768) % 65536 - 32768

/-- Decoding of an alert limit word, sht3x.c lines 254-263:
`tmp = (int32_t)(word & SHT3X_HUMIDITY_LIMIT_MSK); tmp = (1000 * tmp) / 65535;
*humidity = tmp;` then `tmp = (int32_t)(word & SHT3X_TEMPERATURE_LIMIT_MSK);
tmp = (tmp << 7); tmp = (tmp * 1750) / 65535; tmp = tmp - 450;
*temperature = (int16_t)tmp;`.  All intermediate values before the final
subtraction are non-negative and fit in int32, so `Nat` arithmetic is exact;
the `uint16_t` store of the humidity is the `% 65536`. -/
def sht3x_decode_limit (word : Nat) : Nat × Int :=
  let humidity := ((1000 * (word &&& SHT3X_HUMIDITY_LIMIT_MSK)) / 65535) % 65536
  let tmp := (word &&& SHT3X_TEMPERATURE_LIMIT_MSK) <<< 7
  let temperature := int16_cast ((((tmp * 1750) / 65535 : Nat) : Int) - 450)
  (humidity, temperature)

/-- `sht3x_set_alert_thd` (sht3x.c lines 176-219): encode the limit word, then
switch on the threshold slot; the `default` arm returns
`STATUS_ERR_INVALID_PARAMS` without any bus write.  The slot enumerators are
`SHT3X_HIALRT_SET = 0`, `SHT3X_HIALRT_CLR = 1`, `SHT3X_LOALRT_CLR = 2`,
`SHT3X_LOALRT_SET = 3`. -/
def sht3x_set_alert_thd (writeRet : Int) (addr : Nat) (thd : Nat)
    (humidity : Nat) (temperature : Int) : Int × List Effect :=
  let limitVal := sht3x_encode_limit humidity temperature
  match thd with
  | 0 => (writeRet, [Effect.i2cWriteCmdWithArgs addr SHT3X_CMD_WRITE_HIALRT_LIM_SET limitVal])
  | 1 => (writeRet, [Effect.i2cWriteCmdWithArgs addr SHT3X_CMD_WRITE_HIALRT_LIM_CLR limitVal])
  | 2 => (writeRet, [Effect.i2cWriteCmdWithArgs addr SHT3X_CMD_WRITE_LOALRT_LIM_CLR limitVal])
  | 3 => (writeRet, [Effect.i2cWriteCmdWithArgs addr SHT3X_CMD_WRITE_LOALRT_LIM_SET limitVal])
  | _ => (STATUS_ERR_INVALID_PARAMS, [])

/-- `sht3x_get_alert_thd` (sht3x.c lines 221-266): switch on the slot to read
the limit word, then decode it into the two output parameters.  The local
`word` is uninitialized; `wordInit` is its (garbage) initial value, `wordRead`
the word the bus delivers on a valid slot.  The decode runs, and the outputs
are stored, on every path, including the invalid-slot path. -/
def sht3x_get_alert_thd (readRet : Int) (wordRead wordInit : Nat)
    (addr : Nat) (thd : Nat) : Int × Nat × Int × List Effect :=
  let r : Int × Nat × List Effect :=
    match thd with
    | 0 => (readRet, wordRead, [Effect.i2cReadCmd addr SHT3X_CMD_READ_HIALRT_LIM_SET])
    | 1 => (readRet, wordRead, [Effect.i2cReadCmd addr SHT3X_CMD_READ_HIALRT_LIM_CLR])
    | 2 => (readRet, wordRead, [Effect.i2cReadCmd addr SHT3X_CMD_READ_LOALRT_LIM_CLR])
    | 3 => (readRet, wordRead, [Effect.i2cReadCmd addr SHT3X_CMD_READ_LOALRT_LIM_SET])
    | _ => (STATUS_ERR_INVALID_PARAMS, wordInit, [])
  (r.1, (sht3x_decode_limit r.2.1).1, (sht3x_decode_limit r.2.1).2, r.2.2)

/-- The three measurement command words of the non-clock-stretch build. -/
def sht3x_valid_measure_cmd (c : Nat) : Prop :=
  c = SHT3X_CMD_MEASURE_HPM ∨ c = SHT3X_CMD_MEASURE_MPM ∨ c = SHT3X_CMD_MEASURE_LPM

/-- Divide-and-conquer bounded checker: `checkRange f fuel lo len` evaluates
`f` on `lo, lo+1, ..., lo+len-1`, splitting the interval in half so that the
recursion depth is logarithmic in `len`.  When the fuel runs out it only
accepts the empty interval, so a `true` result is sound regardless of fuel. -/
def checkRange (f : Nat → Bool) : Nat → Nat → Nat → Bool
  | 0, _, len => len = 0
  | fuel + 1, lo, len =>
    if len = 0 then true
    else if len = 1 then f lo
    else checkRange f fuel lo (len / 2) && checkRange f fuel (lo + len / 2) (len - len / 2)

theorem checkRange_sound (f : Nat → Bool) :
    ∀ fuel lo len, checkRange f fuel lo len = true → ∀ i, i < len → f (lo + i) = true := by
  intro fuel
  induction fuel with
  | zero =>
    intro lo len h i hi
    simp only [checkRange, decide_eq_true_eq] at h
    omega
  | succ fuel ih =>
    intro lo len h i hi
    by_cases h0 : len = 0
    · omega
    by_cases h1 : len = 1
    · subst h1
      have hz : i = 0 := by omega
      subst hz
      simpa [checkRange, h0] using h
    · have hsplit := h
      simp only [checkRange, if_neg h0, if_neg h1, Bool.and_eq_true] at hsplit
      by_cases hlt : i < len / 2
      · exact ih lo (len / 2) hsplit.1 i hlt
      · have h2 := ih (lo + len / 2) (len - len / 2) hsplit.2 (i - len / 2) (by omega)
        have heq : lo + len / 2 + (i - len / 2) = lo + i := by omega
        rwa [heq] at h2

theorem and_or_mask_hi (a b : Nat) :
    ((a &&& 0xFE00) ||| (b &&& 0x01FF)) &&& 0xFE00 = a &&& 0xFE00 := by
  apply Nat.eq_of_testBit_eq
  intro i
  have hlm : ((0x01FF : Nat).testBit i && (0xFE00 : Nat).testBit i) = false := by
    rw [← Nat.testBit_and]
    have h0 : (0x01FF &&& 0xFE00 : Nat) = 0 := by decide
    rw [h0, Nat.zero_testBit]
  simp only [Nat.testBit_or, Nat.testBit_and]
  cases ha : a.testBit i <;> cases hb : b.testBit i <;>
    cases hm : (0xFE00 : Nat).testBit i <;> cases hl : (0x01FF : Nat).testBit i <;>
    simp_all

theorem and_or_mask_lo (a b : Nat) :
    ((a &&& 0xFE00) ||| (b &&& 0x01FF)) &&& 0x01FF = b &&& 0x01FF := by
  apply Nat.eq_of_testBit_eq
  intro i
  have hlm : ((0x01FF : Nat).testBit i && (0xFE00 : Nat).testBit i) = false := by
    rw [← Nat.testBit_and]
    have h0 : (0x01FF &&& 0xFE00 : Nat) = 0 := by decide
    rw [h0, Nat.zero_testBit]
  simp only [Nat.testBit_or, Nat.testBit_and]
  cases ha : a.testBit i <;> cases hb : b.testBit i <;>
    cases hm : (0xFE00 : Nat).testBit i <;> cases hl : (0x01FF : Nat).testBit i <;>
    simp_all

theorem encode_and_hi (h : Nat) (t : Int) :
    sht3x_encode_limit h t &&& SHT3X_HUMIDITY_LIMIT_MSK = encodeHumField h := by
  simp only [sht3x_encode_limit, encodeHumField, encodeTempField,
    SHT3X_HUMIDITY_LIMIT_MSK, SHT3X_TEMPERATURE_LIMIT_MSK]
  rw [and_or_mask_hi]

theorem encode_and_lo (h : Nat) (t : Int) :
    sht3x_encode_limit h t &&& SHT3X_TEMPERATURE_LIMIT_MSK = encodeTempField t := by
  simp only [sht3x_encode_limit, encodeHumField, encodeTempField,
    SHT3X_HUMIDITY_LIMIT_MSK, SHT3X_TEMPERATURE_LIMIT_MSK]
  rw [and_or_mask_lo]

theorem encodeHumField_and (h : Nat) :
    encodeHumField h &&& SHT3X_HUMIDITY_LIMIT_MSK = encodeHumField h := by
  simp only [encodeHumField, SHT3X_HUMIDITY_LIMIT_MSK]
  rw [Nat.and_assoc, Nat.and_self]

theorem encodeTempField_and (t : Int) :
    encodeTempField t &&& SHT3X_TEMPERATURE_LIMIT_MSK = encodeTempField t := by
  simp only [encodeTempField, SHT3X_TEMPERATURE_LIMIT_MSK]
  rw [Nat.and_assoc, Nat.and_self]

theorem decode_hum_encode (h : Nat) (t : Int) :
    (sht3x_decode_limit (sht3x_encode_limit h t)).1 =
      (sht3x_decode_limit (encodeHumField h)).1 := by
  simp only [sht3x_decode_limit]
  rw [encode_and_hi, encodeHumField_and]

theorem decode_temp_encode (h : Nat) (t : Int) :
    (sht3x_decode_limit (sht3x_encode_limit h t)).2 =
      (sht3x_decode_limit (encodeTempField t)).2 := by
  simp only [sht3x_decode_limit]
  rw [encode_and_lo, encodeTempField_and]

theorem humRT_bound (h : Nat) (hh : h < 1001) :
    |(((sht3x_decode_limit (encodeHumField h)).1 : Int)) - h| ≤ 8 := by
  have hc : checkRange
      (fun x => decide (|(((sht3x_decode_limit (encodeHumField x)).1 : Int)) - x| ≤ 8))
      12 0 1001 = true := by rfl
  simpa using checkRange_sound _ 12 0 1001 hc h hh

theorem tempRT_bound (n : Nat) (hn : n < 1751) :
    65535 * |(sht3x_decode_limit (encodeTempField ((n : Int) - 450))).2 - ((n : Int) - 450)| ≤ 289535 := by
  have hc : checkRange
      (fun x => decide (65535 *
        |(sht3x_decode_limit (encodeTempField ((x : Int) - 450))).2 - ((x : Int) - 450)| ≤ 289535))
      12 0 1751 = true := by rfl
  simpa using checkRange_sound _ 12 0 1751 hc n hn

/-- C1 (amended): round-trip of the alert-threshold encoding.  For every
humidity `h` in tenths of percent (`0 ≤ h ≤ 1000`) and temperature `t` in
tenths of degrees Celsius (`-450 ≤ t ≤ 1300`), decoding the word produced by
the encoder yields a humidity within 8 tenths of percent of `h` (the claim's
exact bound `1000*512/65535 ≈ 7.81` is exceeded by one at e.g. `h = 15`, so
the bound is amended to its ceiling, 8) and a temperature within
`128*1750/65535 + 1` tenths of a degree of `t` (stated multiplied through by
65535: `65535*|Δt| ≤ 128*1750 + 65535 = 289535`, i.e. `|Δt| ≤ 4`). -/
theorem sht3x_alert_thd_roundtrip (h : Nat) (t : Int)
    (hh : h ≤ 1000) (ht1 : -450 ≤ t) (ht2 : t ≤ 1300) :
    |(((sht3x_decode_limit (sht3x_encode_limit h t)).1 : Int)) - h| ≤ 8 ∧
    65535 * |(sht3x_decode_limit (sht3x_encode_limit h t)).2 - t| ≤ 289535 := by
  constructor
  · rw [decode_hum_encode]
    exact humRT_bound h (by omega)
  · rw [decode_temp_encode]
    obtain ⟨n, hn1, hn2⟩ : ∃ n : Nat, (n : Int) - 450 = t ∧ n < 1751 :=
      ⟨(t + 450).toNat, by omega, by omega⟩
    subst hn1
    exact tempRT_bound n hn2

/-- C1 witness: the round-trip bound instantiated at `h = 500`, `t = 250`. -/
theorem sht3x_alert_thd_roundtrip_witness :
    (500 : Nat) ≤ 1000 ∧ (-450 : Int) ≤ 250 ∧ (250 : Int) ≤ 1300 ∧
    (|(((sht3x_decode_limit (sht3x_encode_limit 500 250)).1 : Int)) - 500| ≤ 8 ∧
     65535 * |(sht3x_decode_limit (sht3x_encode_limit 500 250)).2 - 250| ≤ 289535) :=
  ⟨by decide, by decide, by decide,
    sht3x_alert_thd_roundtrip 500 250 (by decide) (by decide) (by decide)⟩

/-- C1 counterexample to the claim as stated: at `h = 15`, `t = 0` (both in
range) the decoded humidity is 7, an error of 8 tenths of percent, which
exceeds the claim's exact bound `1000*512/65535` (`65535 * 8 = 524280 >
512000`). -/
theorem sht3x_alert_thd_roundtrip_exact_bound_fails :
    (15 : Nat) ≤ 1000 ∧ (-450 : Int) ≤ 0 ∧ (0 : Int) ≤ 1300 ∧
    (sht3x_decode_limit (sht3x_encode_limit 15 0)).1 = 7 ∧
    ¬ (65535 * |(((sht3x_decode_limit (sht3x_encode_limit 15 0)).1 : Int)) - 15| ≤ 512000) := by
  decide

/-- C2: `sht3x_read` converts the two raw bus words with the fixed-point
formulas `temperature = (21875 * rawT) >> 13 - 45000` (arithmetic shift on a
non-negative value, i.e. division by 8192) and `humidity = (12500 * rawH) >> 13`,
with the corner values `rawT = 0 ↦ -45000`, `rawT = 65535 ↦ 129997`,
`rawH = 0 ↦ 0`, `rawH = 65535 ↦ 99998`. -/
theorem sht3x_read_conversion (w0 w1 : Nat) (hw0 : w0 < 65536) (hw1 : w1 < 65536)
    (readRet : Int) (addr : Nat) (temp0 hum0 : Int) :
    (sht3x_read readRet w0 w1 addr temp0 hum0).2.1 = ((21875 * w0 / 8192 : Nat) : Int) - 45000 ∧
    (sht3x_read readRet w0 w1 addr temp0 hum0).2.2.1 = ((12500 * w1 / 8192 : Nat) : Int) ∧
    (sht3x_read readRet 0 w1 addr temp0 hum0).2.1 = -45000 ∧
    (sht3x_read readRet 65535 w1 addr temp0 hum0).2.1 = 129997 ∧
    (sht3x_read readRet w0 0 addr temp0 hum0).2.2.1 = 0 ∧
    (sht3x_read readRet w0 65535 addr temp0 hum0).2.2.1 = 99998 := by
  refine ⟨?_, ?_, ?_, ?_, ?_, ?_⟩ <;>
    simp only [sht3x_read, Nat.shiftRight_eq_div_pow] <;> norm_num

/-- C2 witness: the conversion instantiated at `rawT = rawH = 0x8000`. -/
theorem sht3x_read_conversion_witness :
    (0x8000 : Nat) < 65536 ∧
    (sht3x_read 0 0x8000 0x8000 0x44 0 0).2.1 = ((21875 * 0x8000 / 8192 : Nat) : Int) - 45000 := by
  refine ⟨by decide, ?_⟩
  exact (sht3x_read_conversion 0x8000 0x8000 (by decide) (by decide) 0 0x44 0 0).1

/-- C3: the word sent by `sht3x_measure` is the process-wide selector,
independent of the address: after `sht3x_set_power_mode(SHT3X_MEAS_MODE_LPM)`
the next measure writes command 0x2416, and after
`sht3x_enable_low_power_mode(0)` it writes 0x2400 (non-clock-stretch build). -/
theorem sht3x_measure_mode_selection (addr : Nat) (writeRet : Int) :
    sht3x_measure (sht3x_set_power_mode SHT3X_MEAS_MODE_LPM) writeRet addr
      = (writeRet, [Effect.i2cWriteCmd addr 0x2416]) ∧
    sht3x_measure (sht3x_enable_low_power_mode 0) writeRet addr
      = (writeRet, [Effect.i2cWriteCmd addr 0x2400]) :=
  ⟨rfl, rfl⟩

/-- C4: the compound operations short-circuit on the first failure.  For every
non-success status of the initial command write, `sht3x_measure_blocking_read`
returns that status unchanged, leaves the outputs untouched and performs
neither the fixed delay nor the read, and `sht3x_read_serial` returns the
write's status unchanged and performs no word read. -/
theorem sht3x_compound_short_circuit (writeRet : Int) (hw : writeRet ≠ STATUS_OK)
    (cmd : Nat) (readRet readRet2 : Int) (w0 w1 : Nat) (addr : Nat) (temp0 hum0 : Int)
    (b0 b1 b2 b3 : Nat) (serial0 : Nat) :
    sht3x_measure_blocking_read cmd writeRet readRet w0 w1 addr temp0 hum0
      = (writeRet, temp0, hum0, [Effect.i2cWriteCmd addr cmd]) ∧
    (Effect.sleepUsec SHT3X_MEASUREMENT_DURATION_USEC ∉
      (sht3x_measure_blocking_read cmd writeRet readRet w0 w1 addr temp0 hum0).2.2.2) ∧
    (∀ n, Effect.i2cReadWords addr n ∉
      (sht3x_measure_blocking_read cmd writeRet readRet w0 w1 addr temp0 hum0).2.2.2) ∧
    sht3x_read_serial writeRet readRet2 b0 b1 b2 b3 addr serial0
      = (writeRet, serial0,
         [Effect.i2cWriteCmd addr SHT3X_CMD_READ_SERIAL_ID,
          Effect.sleepUsec SHT3X_CMD_DURATION_USEC]) ∧
    (∀ n, Effect.i2cReadWordsAsBytes addr n ∉
      (sht3x_read_serial writeRet readRet2 b0 b1 b2 b3 addr serial0).2.2) := by
  refine ⟨?_, ?_, ?_, ?_, ?_⟩ <;>
    simp [sht3x_measure_blocking_read, sht3x_measure, sht3x_read_serial, hw]

/-- C4 witness: the short-circuit property instantiated at
`writeRet = STATUS_CRC_FAIL = -2`. -/
theorem sht3x_compound_short_circuit_witness :
    (-2 : Int) ≠ STATUS_OK ∧
    sht3x_measure_blocking_read 0x2400 (-2) 0 0 0 0x44 7 9
      = (-2, 7, 9, [Effect.i2cWriteCmd 0x44 0x2400]) :=
  ⟨by decide,
    (sht3x_compound_short_circuit (-2) (by decide) 0x2400 0 0 0 0 0x44 7 9 0 0 0 0 0).1⟩

/-- C5: for every slot value outside the four enumerated threshold slots,
`sht3x_set_alert_thd` returns `STATUS_ERR_INVALID_PARAMS` with zero bus
writes, while `sht3x_get_alert_thd` also returns `STATUS_ERR_INVALID_PARAMS`
but still stores both outputs, decoded from the uninitialized local word. -/
theorem sht3x_alert_thd_invalid_slot (thd : Nat) (hthd : 3 < thd)
    (writeRet readRet : Int) (addr humidity : Nat) (temperature : Int)
    (wordRead wordInit : Nat) :
    sht3x_set_alert_thd writeRet addr thd humidity temperature
      = (STATUS_ERR_INVALID_PARAMS, []) ∧
    sht3x_get_alert_thd readRet wordRead wordInit addr thd
      = (STATUS_ERR_INVALID_PARAMS,
         (sht3x_decode_limit wordInit).1, (sht3x_decode_limit wordInit).2, []) := by
  obtain ⟨k, rfl⟩ : ∃ k, thd = k + 4 := ⟨thd - 4, by omega⟩
  exact ⟨rfl, rfl⟩

/-- C5 witness: the invalid-slot behavior instantiated at slot 4 with garbage
word 0xBEEF. -/
theorem sht3x_alert_thd_invalid_slot_witness :
    (3 : Nat) < 4 ∧
    sht3x_set_alert_thd 0 0x44 4 123 456 = (STATUS_ERR_INVALID_PARAMS, []) ∧
    sht3x_get_alert_thd 0 0 0xBEEF 0x44 4
      = (STATUS_ERR_INVALID_PARAMS,
         (sht3x_decode_limit 0xBEEF).1, (sht3x_decode_limit 0xBEEF).2, []) :=
  ⟨by decide,
    (sht3x_alert_thd_invalid_slot 4 (by decide) 0 0 0x44 123 456 0 0xBEEF).1,
    (sht3x_alert_thd_invalid_slot 4 (by decide) 0 0 0x44 123 456 0 0xBEEF).2⟩

/-- C6: `sht3x_read` writes both output parameters on every bus status: the
stored values are the fixed-point conversions of whatever words the bus
delivered, independent of the return code and of the previous pointee values,
and the bus status is returned unchanged. -/
theorem sht3x_read_outputs_unconditional (readRet : Int) (w0 w1 : Nat)
    (addr : Nat) (temp0 hum0 : Int) :
    (sht3x_read readRet w0 w1 addr temp0 hum0).2.1
      = (((21875 * w0) >>> 13 : Nat) : Int) - 45000 ∧
    (sht3x_read readRet w0 w1 addr temp0 hum0).2.2.1
      = (((12500 * w1) >>> 13 : Nat) : Int) ∧
    (sht3x_read readRet w0 w1 addr temp0 hum0).1 = readRet :=
  ⟨rfl, rfl, rfl⟩

/-- C7: the flag-decoding macros on the status word 0x8011: alert-pending,
last-CRC-fail and system-reset-detected are true, the humidity- and
temperature-tracking alerts are false. -/
theorem sht3x_status_flags_0x8011 :
    SHT3X_IS_ALRT_PENDING 0x8011 = true ∧
    SHT3X_IS_LAST_CRC_FAIL 0x8011 = true ∧
    SHT3X_IS_SYSTEM_RST_DETECT 0x8011 = true ∧
    SHT3X_IS_ALRT_RH_TRACK 0x8011 = false ∧
    SHT3X_IS_ALRT_T_TRACK 0x8011 = false := by
  decide

/-- C8: `sht3x_get_configured_address` is the identity passthrough on
addresses: it returns exactly the numeric value of the address passed in (it
takes no driver state at all, so it consults none). -/
theorem sht3x_get_configured_address_id (addr : Sht3xI2cAddr) :
    sht3x_get_configured_address addr = addr.val :=
  rfl

/-- C9: the process-wide measurement-command selector is always one of the
three valid command words of the non-clock-stretch build: it starts as the
high-precision command, every `sht3x_set_power_mode` and every
`sht3x_enable_low_power_mode` call leaves it valid, and a mode value outside
the three enumerated modes silently selects the high-precision command. -/
theorem sht3x_cmd_measure_invariant :
    sht3x_cmd_measure_init = SHT3X_CMD_MEASURE_HPM ∧
    sht3x_valid_measure_cmd sht3x_cmd_measure_init ∧
    (∀ mode : Nat, sht3x_valid_measure_cmd (sht3x_set_power_mode mode)) ∧
    (∀ e : Nat, sht3x_valid_measure_cmd (sht3x_enable_low_power_mode e)) ∧
    (∀ mode : Nat, 2 < mode → sht3x_set_power_mode mode = SHT3X_CMD_MEASURE_HPM) := by
  refine ⟨rfl, Or.inl rfl, ?_, ?_, ?_⟩
  · intro mode
    rcases mode with _ | _ | _ | k <;>
      simp [sht3x_set_power_mode, sht3x_valid_measure_cmd,
        SHT3X_CMD_MEASURE_HPM, SHT3X_CMD_MEASURE_MPM, SHT3X_CMD_MEASURE_LPM]
  · intro e
    by_cases he : e = 0 <;>
      simp [sht3x_enable_low_power_mode, he, sht3x_valid_measure_cmd,
        SHT3X_CMD_MEASURE_HPM, SHT3X_CMD_MEASURE_MPM, SHT3X_CMD_MEASURE_LPM]
  · intro mode hm
    obtain ⟨k, rfl⟩ : ∃ k, mode = k + 3 := ⟨mode - 3, by omega⟩
    rfl

/-- C9 witness: a mode value outside the enumeration (7) still yields a valid
command word, namely the high-precision one. -/
theorem sht3x_cmd_measure_invariant_witness :
    sht3x_valid_measure_cmd (sht3x_set_power_mode 7) ∧
    ((2 : Nat) < 7 ∧ sht3x_set_power_mode 7 = SHT3X_CMD_MEASURE_HPM) :=
  ⟨sht3x_cmd_measure_invariant.2.2.1 7,
   by decide, sht3x_cmd_measure_invariant.2.2.2.2 7 (by decide)⟩

/-- C10: when the initial serial-ID command write fails, `sht3x_read_serial`
leaves the serial output pointee unchanged, yet still performs the fixed
1000-microsecond delay, and returns the write's error code. -/
theorem sht3x_read_serial_write_fail_frame (writeRet : Int) (hw : writeRet ≠ STATUS_OK)
    (readRet : Int) (b0 b1 b2 b3 : Nat) (addr serial0 : Nat) :
    (sht3x_read_serial writeRet readRet b0 b1 b2 b3 addr serial0).2.1 = serial0 ∧
    Effect.sleepUsec SHT3X_CMD_DURATION_USEC
      ∈ (sht3x_read_serial writeRet readRet b0 b1 b2 b3 addr serial0).2.2 ∧
    (sht3x_read_serial writeRet readRet b0 b1 b2 b3 addr serial0).1 = writeRet := by
  refine ⟨?_, ?_, ?_⟩ <;> simp [sht3x_read_serial, hw]

/-- C10 witness: the failure frame instantiated at
`writeRet = STATUS_ERR_BAD_DATA = -1` with initial serial 0xCAFE. -/
theorem sht3x_read_serial_write_fail_frame_witness :
    (-1 : Int) ≠ STATUS_OK ∧
    (sht3x_read_serial (-1) 0 1 2 3 4 0x44 0xCAFE).2.1 = 0xCAFE ∧
    Effect.sleepUsec SHT3X_CMD_DURATION_USEC
      ∈ (sht3x_read_serial (-1) 0 1 2 3 4 0x44 0xCAFE).2.2 :=
  ⟨by decide,
   (sht3x_read_serial_write_fail_frame (-1) (by decide) 0 1 2 3 4 0x44 0xCAFE).1,
   (sht3x_read_serial_write_fail_frame (-1) (by decide) 0 1 2 3 4 0x44 0xCAFE).2.1⟩
